import Mathlib

/-!
Verification development for the raft-chat repository: a shallow embedding
of the shared wire protocol types (src/shared/src/lib.rs), the duplex
channel primitives (src/shared/src/channel.rs), the server connection
handler (src/server/src/main.rs) and the client controller
(src/client/src/main.rs, src/client/src/ui.rs), together with theorems
settling the specification claims about them.
-/

/-- Mirrors `Message` in src/shared/src/lib.rs.  The Rust `timestamp: u64`
is modelled as `Nat`; where the code performs an `as u64` cast the model
takes the value modulo `2 ^ 64`. -/
structure Message where
  sender : String
  content : String
  timestamp : Nat
deriving DecidableEq

/-- Mirrors `ChatCommand` in src/shared/src/lib.rs. -/
inductive ChatCommand where
  | SendMessage (m : Message)
  | Join (room : String)
  | Leave (room : String)
deriving DecidableEq

/-- Mirrors `ChatResponse` in src/shared/src/lib.rs. -/
inductive ChatResponse where
  | MessageReceived (m : Message)
  | Joined (user : String)
  | Left (user : String)
  | Error (reason : String)
deriving DecidableEq

/-- Mirrors `ChatError` in src/shared/src/lib.rs. -/
inductive ChatError where
  | Network (s : String)
  | Protocol (s : String)
  | Internal (s : String)
deriving DecidableEq

/-- The fragment of the JSON value space that the serde encoding of the
protocol types inhabits: strings, unsigned numbers and objects. -/
inductive Json where
  | str (s : String)
  | num (n : Nat)
  | obj (fields : List (String × Json))

/-- Payload extraction for a string value, as serde does when
deserializing a `String` field or newtype-variant payload. -/
def Json.asStr : Json → Option String
  | .str s => some s
  | _ => none

/-- Payload extraction for an unsigned number, as serde does when
deserializing a `u64` field. -/
def Json.asNum : Json → Option Nat
  | .num n => some n
  | _ => none

/-- First-match field lookup in a JSON object, mirroring how the derived
serde deserializer matches map keys against struct field names (unknown
fields are ignored; serde additionally rejects duplicate fields, which the
canonical encoding never produces). -/
def getField : List (String × Json) → String → Option Json
  | [], _ => none
  | (k, v) :: rest, key => if k = key then some v else getField rest key

/-- serde serialization of `Message`: a JSON object with the three fields
in declaration order. -/
def encodeMessage (m : Message) : Json :=
  .obj [("sender", .str m.sender), ("content", .str m.content),
        ("timestamp", .num m.timestamp)]

/-- serde deserialization of `Message`: all three fields required, order
insensitive. -/
def decodeMessage : Json → Option Message
  | .obj fields => do
      let s ← (getField fields "sender").bind Json.asStr
      let c ← (getField fields "content").bind Json.asStr
      let t ← (getField fields "timestamp").bind Json.asNum
      pure { sender := s, content := c, timestamp := t }
  | _ => none

/-- serde serialization of the externally tagged enum `ChatCommand`:
a single-key object whose key is the variant name. -/
def encodeChatCommand : ChatCommand → Json
  | .SendMessage m => .obj [("SendMessage", encodeMessage m)]
  | .Join room => .obj [("Join", .str room)]
  | .Leave room => .obj [("Leave", .str room)]

/-- serde deserialization of `ChatCommand`: expects a single-key object
whose key names a known variant. -/
def decodeChatCommand : Json → Option ChatCommand
  | .obj [(tag, payload)] =>
      if tag = "SendMessage" then (decodeMessage payload).map .SendMessage
      else if tag = "Join" then payload.asStr.map .Join
      else if tag = "Leave" then payload.asStr.map .Leave
      else none
  | _ => none

/-- serde serialization of the externally tagged enum `ChatResponse`. -/
def encodeChatResponse : ChatResponse → Json
  | .MessageReceived m => .obj [("MessageReceived", encodeMessage m)]
  | .Joined user => .obj [("Joined", .str user)]
  | .Left user => .obj [("Left", .str user)]
  | .Error reason => .obj [("Error", .str reason)]

/-- serde deserialization of `ChatResponse`. -/
def decodeChatResponse : Json → Option ChatResponse
  | .obj [(tag, payload)] =>
      if tag = "MessageReceived" then (decodeMessage payload).map .MessageReceived
      else if tag = "Joined" then payload.asStr.map .Joined
      else if tag = "Left" then payload.asStr.map .Left
      else if tag = "Error" then payload.asStr.map .Error
      else none
  | _ => none

theorem decode_encode_message (m : Message) :
    decodeMessage (encodeMessage m) = some m := by
  cases m
  simp [encodeMessage, decodeMessage, getField, Json.asStr, Json.asNum]

theorem decode_encode_command (c : ChatCommand) :
    decodeChatCommand (encodeChatCommand c) = some c := by
  cases c with
  | SendMessage m =>
      simp [encodeChatCommand, decodeChatCommand, decode_encode_message]
  | Join room => rfl
  | Leave room => rfl

theorem decode_encode_response (r : ChatResponse) :
    decodeChatResponse (encodeChatResponse r) = some r := by
  cases r with
  | MessageReceived m =>
      simp [encodeChatResponse, decodeChatResponse, decode_encode_message]
  | Joined user => rfl
  | Left user => rfl
  | Error reason => rfl

/-- C1: for every valid `ChatCommand` and every valid `ChatResponse`,
decoding the JSON wire encoding yields the original value
(`decode(encode(v)) == v`). -/
theorem roundtrip_command_response :
    (∀ c : ChatCommand, decodeChatCommand (encodeChatCommand c) = some c) ∧
    (∀ r : ChatResponse, decodeChatResponse (encodeChatResponse r) = some r) :=
  ⟨decode_encode_command, decode_encode_response⟩

/-- Outcome of one `read_until(b..n.., &mut buffer)` call followed (when
bytes arrived) by `serde_json::from_slice` on the buffer: `ok n parsed`
is `Ok(n)` with `parsed` the JSON parse of the buffer (`none` for
malformed JSON text), `err e` is `Err(e)`. -/
inductive ReadResult where
  | ok (n : Nat) (parsed : Option Json)
  | err (e : String)

/-- What the server writes for one decoded command in `handle_connection`
(src/server/src/main.rs): `responses` are the frames written back to the
same connection, `logs` the server-side tracing output (the `{:?}` detail
of the logged command is elided).  The handler owns no other state, so
the whole reaction is this pair. -/
structure ServerReaction where
  responses : List ChatResponse
  logs : List String
deriving DecidableEq

/-- The `match cmd` arms of `handle_connection`: `SendMessage(message)`
echoes `MessageReceived(message)` back on the same connection; every
other command only logs an error server-side and writes nothing. -/
def handle_command : ChatCommand → ServerReaction
  | .SendMessage message => { responses := [.MessageReceived message], logs := [] }
  | _ => { responses := [], logs := ["Unknown command"] }

/-- One iteration of the `handle_connection` receive loop: returns the
responses written to this connection and whether the loop continues.
`Ok(n)` with `n > 0` attempts `serde_json::from_slice::<ChatCommand>`;
on decode success the command is handled, on decode failure the
`if let Ok(cmd)` pattern falls through and iteration continues; `Ok(0)`
(connection closed) and `Err` both break the loop.  (The `.unwrap()` on
the response write aborts the handler task on write failure; write
failures are outside this model.) -/
def server_step : ReadResult → List ChatResponse × Bool
  | .ok n parsed =>
      if 0 < n then
        match parsed.bind decodeChatCommand with
        | some cmd => ((handle_command cmd).responses, true)
        | none => ([], true)
      else ([], false)
  | .err _ => ([], false)

/-- C2: every `SendMessage(m)` received by the server connection handler
is answered with exactly `MessageReceived(m)` on the same connection —
the message is unchanged, no log is emitted, no other effect occurs (the
handler has no shared state and no handle to any other connection, so
the response list to this connection is its entire reaction). -/
theorem send_message_echo (m : Message) (n : Nat) (h : 0 < n) :
    handle_command (.SendMessage m) =
      { responses := [.MessageReceived m], logs := [] } ∧
    server_step (.ok n (some (encodeChatCommand (.SendMessage m)))) =
      ([.MessageReceived m], true) := by
  refine ⟨rfl, ?_⟩
  simp [server_step, h, decode_encode_command, handle_command]

/-- Witness for C2 at the scenario message of the spec. -/
theorem send_message_echo_witness :
    handle_command (.SendMessage ⟨"client", "hello", 5⟩) =
      { responses := [.MessageReceived ⟨"client", "hello", 5⟩], logs := [] } ∧
    server_step (.ok 70 (some (encodeChatCommand (.SendMessage ⟨"client", "hello", 5⟩)))) =
      ([.MessageReceived ⟨"client", "hello", 5⟩], true) :=
  send_message_echo ⟨"client", "hello", 5⟩ 70 (by decide)

/-- Counterexample to C3: a frame that reaches the handler but fails to
decode as a `ChatCommand` (here well-formed JSON of the wrong shape) does
NOT terminate the receive loop — `server_step` reports continue = true,
so the handler keeps reading further frames. -/
theorem server_decode_failure_continues :
    (some (Json.str "nonsense")).bind decodeChatCommand = none ∧
    server_step (.ok 10 (some (Json.str "nonsense"))) = ([], true) :=
  ⟨rfl, rfl⟩

/-- C3 (amended): the handler terminates the loop on a read error and on
a zero-length read (peer closed), but a frame that fails to decode as a
`ChatCommand` is silently skipped and the loop continues. -/
theorem server_loop_termination (e : String) (j : Option Json) (n : Nat) :
    (server_step (.err e)).2 = false ∧
    (server_step (.ok 0 j)).2 = false ∧
    (0 < n → j.bind decodeChatCommand = none →
      server_step (.ok n j) = ([], true)) := by
  refine ⟨rfl, rfl, fun hn hd => ?_⟩
  simp [server_step, hn, hd]

/-- Witness for C3 (amended) at concrete read outcomes. -/
theorem server_loop_termination_witness :
    (server_step (.err "boom")).2 = false ∧
    (server_step (.ok 0 (some (Json.str "x")))).2 = false ∧
    server_step (.ok 10 (some (Json.str "x"))) = ([], true) := by
  have h := server_loop_termination "boom" (some (Json.str "x")) 10
  exact ⟨h.1, h.2.1, h.2.2 (by decide) rfl⟩

/-- C4 (code bug): a `Join` command that reaches the server is a silent
no-op from the client's point of view — the handler writes no response
at all (only a server-side log) and keeps the connection open, instead
of surfacing an explicit error response or rejection. -/
theorem join_silent_noop :
    handle_command (.Join "general") =
      { responses := [], logs := ["Unknown command"] } ∧
    handle_command (.Leave "general") =
      { responses := [], logs := ["Unknown command"] } ∧
    server_step (.ok 18 (some (encodeChatCommand (.Join "general")))) = ([], true) :=
  ⟨rfl, rfl, rfl⟩

/-- `ChatClientChannel::receive_event` (src/shared/src/channel.rs) as a
function of the read outcome: `Ok(n)` with `n > 0` parses the buffer as
a `ChatResponse` (the serde detail string of a parse failure is elided),
`Ok(0)` is the peer-closed case, `Err(e)` is a transport failure. -/
def receive_event : ReadResult → Except ChatError ChatResponse
  | .ok n parsed =>
      if 0 < n then
        match parsed.bind decodeChatResponse with
        | some v => .ok v
        | none => .error (.Protocol "failed to parse event")
      else .error (.Network "connection closed")
  | .err e => .error (.Network ("failed to read from connection: " ++ e))

/-- `ChatClientChannel::receive_command` (src/shared/src/channel.rs),
identical to `receive_event` but decoding a `ChatCommand`. -/
def receive_command : ReadResult → Except ChatError ChatCommand
  | .ok n parsed =>
      if 0 < n then
        match parsed.bind decodeChatCommand with
        | some v => .ok v
        | none => .error (.Protocol "failed to parse command")
      else .error (.Network "connection closed")
  | .err e => .error (.Network ("failed to read from connection: " ++ e))

/-- C5: a zero-length read yields `Network("connection closed")` and
never a `Protocol` error; an underlying read error yields a `Network`
error; and a complete frame that fails to parse as the requested type
yields a `Protocol` error — for both `receive_event` and
`receive_command`. -/
theorem receive_error_taxonomy (j : Option Json) (e : String) (n : Nat) :
    (receive_event (.ok 0 j) = .error (.Network "connection closed") ∧
     receive_command (.ok 0 j) = .error (.Network "connection closed") ∧
     ∀ s, receive_event (.ok 0 j) ≠ .error (.Protocol s) ∧
          receive_command (.ok 0 j) ≠ .error (.Protocol s)) ∧
    (receive_event (.err e) =
       .error (.Network ("failed to read from connection: " ++ e)) ∧
     receive_command (.err e) =
       .error (.Network ("failed to read from connection: " ++ e))) ∧
    (0 < n → j.bind decodeChatResponse = none →
       receive_event (.ok n j) = .error (.Protocol "failed to parse event")) ∧
    (0 < n → j.bind decodeChatCommand = none →
       receive_command (.ok n j) = .error (.Protocol "failed to parse command")) := by
  refine ⟨⟨rfl, rfl, fun s => ⟨by simp [receive_event], by simp [receive_command]⟩⟩,
          ⟨rfl, rfl⟩, fun hn hd => ?_, fun hn hd => ?_⟩
  · simp [receive_event, hn, hd]
  · simp [receive_command, hn, hd]

/-- Witness for C5 at concrete read outcomes (a wrong-shape JSON frame,
a read error, a clean close). -/
theorem receive_error_taxonomy_witness :
    receive_event (.ok 0 (some (Json.str "x"))) =
      .error (.Network "connection closed") ∧
    receive_event (.err "io") =
      .error (.Network ("failed to read from connection: " ++ "io")) ∧
    receive_event (.ok 9 (some (Json.str "x"))) =
      .error (.Protocol "failed to parse event") ∧
    receive_command (.ok 9 (some (Json.str "x"))) =
      .error (.Protocol "failed to parse command") := by
  have h := receive_error_taxonomy (some (Json.str "x")) "io" 9
  exact ⟨h.1.1, h.2.1.1, h.2.2.1 (by decide) rfl, h.2.2.2 (by decide) rfl⟩

/-- `ChatClientChannel::send_bytes` (src/shared/src/channel.rs), effect on
the caller-owned buffer: pushes a single newline byte when the buffer
does not already end with one, then writes the whole buffer to the wire
(so the returned list is both the final buffer contents and the bytes
written). -/
def send_bytes_buffer (data : List Nat) : List Nat :=
  if data.getLast? = some 10 then data else data ++ [10]

/-- A byte buffer ends with exactly one newline delimiter: its last byte
is 0x0A and the byte before it (when present) is not. -/
def endsWithOneDelim (l : List Nat) : Prop :=
  l.getLast? = some 10 ∧ ¬ (l.dropLast.getLast? = some 10)

instance (l : List Nat) : Decidable (endsWithOneDelim l) :=
  inferInstanceAs (Decidable (_ ∧ _))

/-- Counterexample to C6: on a buffer already ending in two delimiter
bytes, `send_bytes` appends nothing (the delimiter is present) and the
written frame ends with two delimiter bytes, not exactly one. -/
theorem send_bytes_two_delims :
    send_bytes_buffer [10, 10] = [10, 10] ∧
    ¬ endsWithOneDelim (send_bytes_buffer [10, 10]) := by
  decide

/-- C6 (amended): `send_bytes` appends the newline delimiter exactly when
the buffer does not already end with one, and every frame it writes ends
with the delimiter byte 0x0A; the frame ends with exactly one delimiter
byte whenever the input buffer did not already end with two or more
delimiter bytes. -/
theorem send_bytes_delimiter (data : List Nat) :
    (data.getLast? ≠ some 10 → send_bytes_buffer data = data ++ [10]) ∧
    (data.getLast? = some 10 → send_bytes_buffer data = data) ∧
    (send_bytes_buffer data).getLast? = some 10 ∧
    (¬ (data.getLast? = some 10 ∧ data.dropLast.getLast? = some 10) →
      endsWithOneDelim (send_bytes_buffer data)) := by
  by_cases h : data.getLast? = some 10
  · refine ⟨fun hc => absurd h hc, fun _ => by simp [send_bytes_buffer, h],
      by simp [send_bytes_buffer, h], fun hne => ?_⟩
    have hd : ¬ (data.dropLast.getLast? = some 10) := fun hdd => hne ⟨h, hdd⟩
    simpa [endsWithOneDelim, send_bytes_buffer, h] using hd
  · have hb : send_bytes_buffer data = data ++ [10] := by
      simp [send_bytes_buffer, h]
    refine ⟨fun _ => hb, fun hc => absurd hc h, ?_, fun _ => ?_⟩
    · simp [hb]
    · refine ⟨by simp [hb], ?_⟩
      rw [hb, List.dropLast_concat]
      exact h

/-- Witness for C6 (amended) at a one-byte payload. -/
theorem send_bytes_delimiter_witness :
    send_bytes_buffer [104] = [104, 10] ∧
    endsWithOneDelim (send_bytes_buffer [104]) := by
  have h := send_bytes_delimiter [104]
  exact ⟨h.1 (by decide), h.2.2.2 (by decide)⟩

/-- C10: `send_bytes` mutates the caller's buffer in place — when the
buffer does not end with the delimiter exactly one delimiter byte is
appended, and in every call the bytes originally present remain an
unchanged prefix of the final buffer. -/
theorem send_bytes_frame_effect (data : List Nat) :
    (data.getLast? ≠ some 10 → send_bytes_buffer data = data ++ [10]) ∧
    (send_bytes_buffer data).take data.length = data := by
  constructor
  · intro h
    simp [send_bytes_buffer, h]
  · by_cases h : data.getLast? = some 10 <;>
      simp [send_bytes_buffer, h, List.take_left]

/-- Witness for C10 at a two-byte payload without a trailing delimiter. -/
theorem send_bytes_frame_effect_witness :
    send_bytes_buffer [104, 105] = [104, 105, 10] ∧
    (send_bytes_buffer [104, 105]).take 2 = [104, 105] := by
  have h := send_bytes_frame_effect [104, 105]
  exact ⟨h.1 (by decide), h.2⟩


/-- Rust `str::splitn(2, sep)` on a character list: split at the first
occurrence of `sep` into at most two pieces (the whole input as one piece
when `sep` is absent). -/
def splitn2Aux (sep : Char) : List Char → List Char → List String
  | acc, [] => [String.mk acc.reverse]
  | acc, c :: cs =>
      if c = sep then [String.mk acc.reverse, String.mk cs]
      else splitn2Aux sep (c :: acc) cs

/-- `splitn(2, sep)` from an empty accumulator. -/
def splitn2 (sep : Char) (s : List Char) : List String := splitn2Aux sep [] s

/-- The sub-command parse in `handle_user_message`
(src/client/src/main.rs): on the text after the leading slash,
`parts = splitn(2, ' ')`, the sub-command is `parts[0]` and the argument
`parts.get(1).unwrap_or("")`. -/
def parse_command_line (rest : List Char) : String × String :=
  let parts := splitn2 ' ' rest
  (parts.headD "", (parts[1]?).getD "")

/-- A send the client controller performs on the channel: either
`send_command(c)` or `send_message(text)`. -/
inductive ClientSend where
  | command (c : ChatCommand)
  | message (text : String)
deriving DecidableEq

/-- Observable effect of one `handle_user_message` call: the channel
sends attempted, the `UIMessage` contents pushed to the presentation
side, and whether the controller loop continues (`Ok(true)` vs
`Ok(false)`). -/
structure UserStep where
  sends : List ClientSend
  notices : List String
  cont : Bool
deriving DecidableEq

/-- `ChatClientChannel::send_message` (src/shared/src/channel.rs) builds
this command from the text, the fixed client identity and the wall-clock
epoch milliseconds (cast `as u64`, i.e. modulo `2 ^ 64`). -/
def send_message_command (msg_body : String) (now_millis : Nat) : ChatCommand :=
  .SendMessage { sender := "client", content := msg_body,
                 timestamp := now_millis % 2 ^ 64 }

/-- `handle_user_message` (src/client/src/main.rs) as a function of the
typed line and of the outcome of the attempted channel send (`sendErr`
is `some e` when that send fails with error display `e`, `none` when it
succeeds or no send happens).  A line starting with the `/` prefix has
the text after the prefix parsed by `parse_command_line`; `join`/`leave`
send the corresponding command with a failure notice on send error,
`quit` notifies and stops the loop, an unknown token notifies; a line
without the prefix is sent verbatim via `send_message`.  Every branch
except `quit` returns `Ok(true)`. -/
def handle_user_message (sendErr : Option String) (message : String) : UserStep :=
  if message.data.head? = some '/' then
    let command := (parse_command_line message.data.tail).1
    let args := (parse_command_line message.data.tail).2
    if command = "join" then
      { sends := [.command (.Join args)],
        notices := match sendErr with
          | some e => ["Error joining: " ++ e]
          | none => [],
        cont := true }
    else if command = "leave" then
      { sends := [.command (.Leave args)],
        notices := match sendErr with
          | some e => ["Error leaving: " ++ e]
          | none => [],
        cont := true }
    else if command = "quit" then
      { sends := [], notices := ["Shutting down..."], cont := false }
    else
      { sends := [], notices := ["Unknown command: /" ++ command], cont := true }
  else
    { sends := [.message message],
      notices := match sendErr with
        | some e => ["Error sending message: " ++ e]
        | none => [],
      cont := true }

theorem string_mk_data (s : String) : String.mk s.data = s := rfl

theorem splitn2_first_space (tok rest : List Char)
    (htok : ∀ c ∈ tok, c ≠ ' ') :
    splitn2 ' ' (tok ++ ' ' :: rest) = [String.mk tok, String.mk rest] := by
  suffices h : ∀ acc, splitn2Aux ' ' acc (tok ++ ' ' :: rest) =
      [String.mk (acc.reverse ++ tok), String.mk rest] by
    simpa [splitn2] using h []
  induction tok with
  | nil => intro acc; simp [splitn2Aux]
  | cons c cs ih =>
      intro acc
      have hc : c ≠ ' ' := htok c (by simp)
      have ihs := ih (fun x hx => htok x (by simp [hx])) (c :: acc)
      simp only [List.cons_append, splitn2Aux, if_neg hc, List.append_eq]
      rw [ihs]
      simp

theorem parse_command_line_token (tok rest : List Char)
    (htok : ∀ c ∈ tok, c ≠ ' ') :
    parse_command_line (tok ++ ' ' :: rest) = (String.mk tok, String.mk rest) := by
  simp only [parse_command_line]
  rw [splitn2_first_space tok rest htok]
  rfl

theorem handle_join_line (se : Option String) (R : String) :
    handle_user_message se ("/join " ++ R) =
      { sends := [.command (.Join R)],
        notices := match se with
          | some e => ["Error joining: " ++ e]
          | none => [],
        cont := true } := by
  have hp : parse_command_line ("/join " ++ R).data.tail = ("join", R) := by
    have h := parse_command_line_token ['j', 'o', 'i', 'n'] R.data (by decide)
    rw [string_mk_data] at h
    exact h
  have ht : ("/join " ++ R).data.head? = some '/' := rfl
  simp only [handle_user_message]
  rw [if_pos ht, hp]
  simp

theorem handle_leave_line (se : Option String) (R : String) :
    handle_user_message se ("/leave " ++ R) =
      { sends := [.command (.Leave R)],
        notices := match se with
          | some e => ["Error leaving: " ++ e]
          | none => [],
        cont := true } := by
  have hp : parse_command_line ("/leave " ++ R).data.tail = ("leave", R) := by
    have h := parse_command_line_token ['l', 'e', 'a', 'v', 'e'] R.data (by decide)
    rw [string_mk_data] at h
    exact h
  have ht : ("/leave " ++ R).data.head? = some '/' := rfl
  simp only [handle_user_message]
  rw [if_pos ht, hp]
  simp

/-- C7: `"/join general"` parses to sub-command `"join"` with argument
`"general"`; `"/quit"` parses to sub-command `"quit"` with argument `""`;
and a line whose first character is not the `/` prefix is never
interpreted as a sub-command — it is sent verbatim through
`send_message`, which wraps it unchanged as the content of a
`SendMessage` command. -/
theorem command_parsing :
    parse_command_line ("/join general".data.tail) = ("join", "general") ∧
    parse_command_line ("/quit".data.tail) = ("quit", "") ∧
    (∀ (s : String) (se : Option String), s.data.head? ≠ some '/' →
      handle_user_message se s =
        { sends := [.message s],
          notices := match se with
            | some e => ["Error sending message: " ++ e]
            | none => [],
          cont := true }) ∧
    (∀ (s : String) (ts : Nat),
      send_message_command s ts =
        .SendMessage { sender := "client", content := s,
                       timestamp := ts % 2 ^ 64 }) := by
  refine ⟨by decide, by decide, fun s se h => ?_, fun s ts => rfl⟩
  simp only [handle_user_message]
  rw [if_neg h]

/-- Witness for C7 on the plain line of the spec scenario. -/
theorem command_parsing_witness :
    handle_user_message none "hello" =
      { sends := [.message "hello"], notices := [], cont := true } :=
  command_parsing.2.2.1 "hello" none (by decide)

/-- C8: `"/join R"` sends `Join(R)` and `"/leave R"` sends `Leave(R)`;
when such a send fails the failure is reported to the presentation side
and the loop continues; an unrecognized sub-command token sends nothing,
yields an unknown-command notice, and likewise continues the loop. -/
theorem join_leave_send :
    (∀ (R : String) (se : Option String),
      (handle_user_message se ("/join " ++ R)).sends = [.command (.Join R)] ∧
      (handle_user_message se ("/join " ++ R)).cont = true ∧
      (handle_user_message se ("/leave " ++ R)).sends = [.command (.Leave R)] ∧
      (handle_user_message se ("/leave " ++ R)).cont = true) ∧
    (∀ (R e : String),
      (handle_user_message (some e) ("/join " ++ R)).notices =
        ["Error joining: " ++ e] ∧
      (handle_user_message (some e) ("/leave " ++ R)).notices =
        ["Error leaving: " ++ e]) ∧
    (∀ (se : Option String) (msg c : String),
      msg.data.head? = some '/' →
      c = (parse_command_line msg.data.tail).1 →
      c ≠ "join" → c ≠ "leave" → c ≠ "quit" →
      handle_user_message se msg =
        { sends := [], notices := ["Unknown command: /" ++ c], cont := true }) := by
  refine ⟨fun R se => ?_, fun R e => ?_, fun se msg c hh hc hj hl hq => ?_⟩
  · simp [handle_join_line, handle_leave_line]
  · simp [handle_join_line, handle_leave_line]
  · subst hc
    simp only [handle_user_message]
    rw [if_pos hh, if_neg hj, if_neg hl, if_neg hq]

/-- Witness for C8 at the spec inputs and an unknown token. -/
theorem join_leave_send_witness :
    (handle_user_message none ("/join " ++ "general")).sends =
      [.command (.Join "general")] ∧
    (handle_user_message (some "io") ("/join " ++ "general")).notices =
      ["Error joining: " ++ "io"] ∧
    handle_user_message none "/foo" =
      { sends := [], notices := ["Unknown command: /" ++ "foo"], cont := true } := by
  have h1 := join_leave_send.1 "general" none
  have h2 := join_leave_send.2.1 "general" "io"
  have h3 := join_leave_send.2.2 none "/foo" "foo" (by decide) (by decide)
    (by decide) (by decide) (by decide)
  exact ⟨h1.1, h2.1, h3⟩

/-- `UIController::shutdown` (src/client/src/ui.rs): the state is the
`Option` oneshot sender behind the mutex (`shutdown_tx`), consumed by
`take()`; `receiverAlive` says whether the `ChatUI` end of the oneshot
still exists (so `tx.send(())` succeeds).  Returns the state after the
call and the `Result`. -/
def UIController.shutdown (receiverAlive : Bool) (shutdown_tx : Option Unit) :
    Option Unit × Except String Unit :=
  match shutdown_tx with
  | some _ => (none,
      if receiverAlive then .ok ()
      else .error "Failed to send shutdown signal")
  | none => (none, .error "Shutdown signal already sent")

/-- C9: the shutdown signal is one-shot — the first call (with the UI
end of the oneshot alive) succeeds and delivers the signal; every call
consumes the sender, and every call on the consumed state returns an
explicit already-sent error, never success. -/
theorem shutdown_one_shot :
    UIController.shutdown true (some ()) = (none, .ok ()) ∧
    (∀ (alive : Bool) (st : Option Unit),
      (UIController.shutdown alive st).1 = none) ∧
    (∀ alive : Bool,
      UIController.shutdown alive none =
        (none, .error "Shutdown signal already sent")) := by
  refine ⟨rfl, fun alive st => ?_, fun alive => rfl⟩
  cases st <;> rfl
